import Mathlib

/-!
Verification of the PET HRE board core (pethre.c) against its design spec.

The embedding below translates the control-register state machine
(crtc_store_hre), the diagnostics dump (e888_dump), power-up and reset,
the snapshot codec, and the raster draw callback (pethre_DRAW) into pure
Lean functions. Machine integers are Nat (values kept in range by the
sources: reg_E888 is a uint8_t, petmem_ramON and the ramsel flags are
ints that this core only sets to 0 or 1). External collaborators are
modelled as explicit parameters: mem_ram as a byte function, dwg_table
as a nibble-indexed function, ramsel_changed() as an instrumentation
counter, and crtc_set_hires_draw_callback as a Bool flag recording
whether pethre_DRAW is currently registered.
-/

set_option autoImplicit false

namespace Pethre

/-- Whole-core state: the globals of pethre.c plus the external cells it
writes (petmem_ramON, petres.ramsel9, petres.ramselA, the CRTC register
number, the hires-draw-callback registration), and an instrumentation
counter for calls to ramsel_changed(). -/
structure HreState where
  pethre_enabled : Bool
  reg_E888 : Nat
  petmem_ramON : Nat
  ramsel9 : Nat
  ramselA : Nat
  crtc_regno : Nat
  hires_draw_callback : Bool
  ramsel_changed_count : Nat
  deriving DecidableEq, Repr

/-- CRTC_MA12: bit 4 of the screen-start high byte turns hi-res off. -/
def CRTC_MA12 : Nat := 0x10

/-- crtc_store_hre from pethre.c: decode an I/O write at `addr` with
`value`. Address bit 3 selects the E888 latch path (banking); otherwise
address bit 0 selects the CRTC data-register path, which reacts only to
register 12 (screen start high byte) and toggles the draw callback. -/
def crtc_store_hre (st : HreState) (addr value : Nat) : HreState :=
  if st.pethre_enabled then
    if addr &&& 0x0008 ≠ 0 then
      if value ≠ st.reg_E888 then
        let st1 :=
          if value = 0x0F then
            { st with petmem_ramON := 0, ramsel9 := 0, ramselA := 0,
                      ramsel_changed_count := st.ramsel_changed_count + 1 }
          else if value = 0x83 then
            { st with petmem_ramON := 1, ramsel9 := 0, ramselA := 0,
                      ramsel_changed_count := st.ramsel_changed_count + 1 }
          else st
        { st1 with reg_E888 := value }
      else st
    else if addr &&& 0x0001 ≠ 0 then
      if st.crtc_regno = 0x0c then
        if value &&& CRTC_MA12 ≠ 0 then
          { st with hires_draw_callback := false }
        else
          { st with hires_draw_callback := true }
      else st
    else st
  else st

/-- e888_dump from pethre.c: returns none for the -1 (disabled) case;
otherwise some (latch value, whether the "(unusual value)" annotation is
printed, ramON value), the return code being 0. -/
def e888_dump (st : HreState) : Option (Nat × Bool × Nat) :=
  if st.pethre_enabled then
    some (st.reg_E888, decide (st.reg_E888 ≠ 0x0F ∧ st.reg_E888 ≠ 0x83),
          st.petmem_ramON)
  else none

/-- pethre_powerup from pethre.c: reset the HRE only on powerup. -/
def pethre_powerup (st : HreState) : HreState :=
  { st with reg_E888 := 0x0F, petmem_ramON := 0 }

/-- pethre_reset from pethre.c: an empty function body. -/
def pethre_reset (st : HreState) : HreState :=
  st

/-! ### Snapshot codec -/

/-- HREMEM_DUMP_VER_MAJOR from pethre.c. -/
def HREMEM_DUMP_VER_MAJOR : Nat := 1

/-- HREMEM_DUMP_VER_MINOR from pethre.c. -/
def HREMEM_DUMP_VER_MINOR : Nat := 0

/-- A snapshot module for the HREMEM record: the version bytes and the
single 16-bit word written by SMW_W. -/
structure snapshot_module_t where
  vmajor : Nat
  vminor : Nat
  word : Nat
  deriving DecidableEq, Repr

/-- pethre_ram_write_snapshot_module from pethre.c: emit the record with
major/minor version and the latch value widened to 16 bits. -/
def pethre_ram_write_snapshot_module (st : HreState) : snapshot_module_t :=
  { vmajor := HREMEM_DUMP_VER_MAJOR, vminor := HREMEM_DUMP_VER_MINOR,
    word := st.reg_E888 }

/-- pethre_ram_read_snapshot_module from pethre.c: snapshot_module_open
yields none when the record is absent (return -1, state untouched); a
major-version mismatch returns -1 leaving the state untouched; otherwise
the 16-bit word is read and narrowed to 8 bits into reg_E888 (return 0). -/
def pethre_ram_read_snapshot_module (m : Option snapshot_module_t)
    (st : HreState) : Int × HreState :=
  match m with
  | none => (-1, st)
  | some m =>
    if m.vmajor ≠ HREMEM_DUMP_VER_MAJOR then
      (-1, st)
    else
      (0, { st with reg_E888 := m.word % 256 })

/-- pethre_snapshot_read_module from pethre.c: maps an inner failure to 0
"for now, to be able to read old snapshots"; returns 0 in every case. -/
def pethre_snapshot_read_module (m : Option snapshot_module_t)
    (st : HreState) : Int × HreState :=
  let r := pethre_ram_read_snapshot_module m st
  if r.1 < 0 then (0, r.2) else (0, r.2)

/-! ### Raster drawing -/

/-- MA_WIDTH from pethre.c. -/
def MA_WIDTH : Nat := 64

/-- MA_LO from pethre.c: low 6 bits of the matrix address. -/
def MA_LO : Nat := MA_WIDTH - 1

/-- MA_HI from pethre.c: the complement mask of MA_LO within a 32-bit
int, written here as a 32-bit xor since Nat has no two's complement. -/
def MA_HI : Nat := 0xFFFFFFFF ^^^ MA_LO

/-- RA_SKIP from pethre.c: 7 * 64 = 448. -/
def RA_SKIP : Nat := 7 * MA_WIDTH

/-- The screen_rel pointer computed by pethre_DRAW, as an offset from
mem_ram: mem_ram + 0x8000 + (ma_hi << 3) + (ymod8 << 6) + ma_lo, which
forms the shuffled address <MA 11-6><RA 2-0><MA 5-0>. -/
def hre_screen_rel (scr_rel ymod8 : Nat) : Nat :=
  0x8000 + ((scr_rel &&& MA_HI) <<< 3) + (ymod8 <<< 6) + (scr_rel &&& MA_LO)

/-- One emission loop of pethre_DRAW: for each of `n` consecutive source
bytes starting at offset `s`, write dwg_table of the high nibble then
dwg_table of the low nibble to the output word pointer. -/
def hre_draw_run (mem dwg : Nat → Nat) : Nat → Nat → List Nat
  | _, 0 => []
  | s, n + 1 =>
    dwg ((mem s % 256) >>> 4) :: dwg ((mem s % 256) &&& 0x0F) ::
      hre_draw_run mem dwg (s + 1) n

/-- The simple case of pethre_DRAW: the segment fits within a single
64-char wide block, read `width` bytes sequentially. -/
def hre_fast_path (mem dwg : Nat → Nat) (screen_rel width : Nat) : List Nat :=
  hre_draw_run mem dwg screen_rel width

/-- The general case of pethre_DRAW: the output straddles a 64-char
block boundary; emit width0 = min(width, MA_WIDTH - ma_lo) bytes, skip
RA_SKIP source bytes, then emit the remaining width - width0 bytes. -/
def hre_general_path (mem dwg : Nat → Nat)
    (screen_rel ma_lo width : Nat) : List Nat :=
  let w0 := MA_WIDTH - ma_lo
  let width0 := if width < w0 then width else w0
  hre_draw_run mem dwg screen_rel width0 ++
    hre_draw_run mem dwg (screen_rel + width0 + RA_SKIP) (width - width0)

/-- Source offsets read by the general case, in order. -/
def hre_general_reads (screen_rel ma_lo width : Nat) : List Nat :=
  let w0 := MA_WIDTH - ma_lo
  let width0 := if width < w0 then width else w0
  List.range' screen_rel width0 ++
    List.range' (screen_rel + width0 + RA_SKIP) (width - width0)

/-- Observable outcome of one pethre_DRAW call: the screen_rel offset it
computed (none when the guard rejects the call), whether the
"screen_rel too large" diagnostic printf fired, the 32-bit words written
through the output pointer in order, and the mem_ram offsets read. -/
structure DrawOutput where
  offset : Option Nat
  diag : Bool
  writes : List Nat
  reads : List Nat
  deriving DecidableEq, Repr

/-- pethre_DRAW from pethre.c. `mem` is mem_ram (a byte array), `dwg` is
dwg_table. Guarded by ymod8 < 8 and xstart < xend; computes the shuffled
screen_rel offset, prints a diagnostic when it is at or past
mem_ram + 0xE000, then draws via the fast or the general path. -/
def pethre_DRAW (mem dwg : Nat → Nat)
    (xstart xend scr_rel ymod8 : Nat) : DrawOutput :=
  if ymod8 < 8 ∧ xstart < xend then
    let ma_lo := scr_rel &&& MA_LO
    let screen_rel := hre_screen_rel scr_rel ymod8
    let width := xend - xstart
    { offset := some screen_rel
      diag := decide (0xE000 ≤ screen_rel)
      writes :=
        if ma_lo = 0 ∧ width ≤ MA_WIDTH then
          hre_fast_path mem dwg screen_rel width
        else
          hre_general_path mem dwg screen_rel ma_lo width
      reads :=
        if ma_lo = 0 ∧ width ≤ MA_WIDTH then
          List.range' screen_rel width
        else
          hre_general_reads screen_rel ma_lo width }
  else
    { offset := none, diag := false, writes := [], reads := [] }

/-- The raster-translation offset formula as the spec words it in §4.3:
base + (highPart << 3) + (rowWithinChar << 6) + lowPart, with
highPart = screenRelativeAddress with the low six bits cleared and
lowPart = screenRelativeAddress and 63. Used to compare the code's
computation against the spec's formula. -/
def spec_offset_formula (base scr_rel ymod8 : Nat) : Nat :=
  base + ((scr_rel &&& MA_HI) <<< 3) + (ymod8 <<< 6) + (scr_rel &&& MA_LO)

/-! ### Concrete states used by witnesses and counterexamples -/

/-- A freshly powered-up, enabled instance (latch 0x0F, all flags 0). -/
def stA : HreState :=
  { pethre_enabled := true, reg_E888 := 0x0F, petmem_ramON := 0,
    ramsel9 := 0, ramselA := 0, crtc_regno := 0,
    hires_draw_callback := false, ramsel_changed_count := 0 }

/-- An enabled instance with ROMs banked out (latch 0x83, ramON = 1),
CRTC register number 12 selected, callback registered. -/
def stB : HreState :=
  { pethre_enabled := true, reg_E888 := 0x83, petmem_ramON := 1,
    ramsel9 := 0, ramselA := 0, crtc_regno := 0x0c,
    hires_draw_callback := true, ramsel_changed_count := 0 }

/-! ### Claims about the control-register state machine -/

/-- C3: a qualifying latch write (enabled, address bit 3 set) of 0x0F
leaves RAM-on false, both RAM-select overrides 0, the latch 0x0F, and
issues exactly one banking-change notification, or zero when the latch
already held 0x0F; symmetrically a write of 0x83 sets RAM-on true with
the same single-notification and repeat-suppression rule. The two state
hypotheses say the banking flags are consistent with the stored latch
for the two known-good values, which the full system maintains; they
matter only for the repeated-write no-op case. -/
theorem claim_C3 (st : HreState) (addr : Nat)
    (hen : st.pethre_enabled = true)
    (haddr : addr &&& 0x0008 ≠ 0)
    (hstate0F : st.reg_E888 = 0x0F →
      st.petmem_ramON = 0 ∧ st.ramsel9 = 0 ∧ st.ramselA = 0)
    (hstate83 : st.reg_E888 = 0x83 →
      st.petmem_ramON = 1 ∧ st.ramsel9 = 0 ∧ st.ramselA = 0) :
    ((crtc_store_hre st addr 0x0F).petmem_ramON = 0 ∧
     (crtc_store_hre st addr 0x0F).ramsel9 = 0 ∧
     (crtc_store_hre st addr 0x0F).ramselA = 0 ∧
     (crtc_store_hre st addr 0x0F).reg_E888 = 0x0F ∧
     (st.reg_E888 ≠ 0x0F →
       (crtc_store_hre st addr 0x0F).ramsel_changed_count =
         st.ramsel_changed_count + 1) ∧
     (st.reg_E888 = 0x0F →
       (crtc_store_hre st addr 0x0F).ramsel_changed_count =
         st.ramsel_changed_count)) ∧
    ((crtc_store_hre st addr 0x83).petmem_ramON = 1 ∧
     (crtc_store_hre st addr 0x83).ramsel9 = 0 ∧
     (crtc_store_hre st addr 0x83).ramselA = 0 ∧
     (crtc_store_hre st addr 0x83).reg_E888 = 0x83 ∧
     (st.reg_E888 ≠ 0x83 →
       (crtc_store_hre st addr 0x83).ramsel_changed_count =
         st.ramsel_changed_count + 1) ∧
     (st.reg_E888 = 0x83 →
       (crtc_store_hre st addr 0x83).ramsel_changed_count =
         st.ramsel_changed_count)) := by
  constructor
  · by_cases h : st.reg_E888 = 0x0F
    · have hc := hstate0F h
      simp [crtc_store_hre, hen, haddr, h, hc.1, hc.2.1, hc.2.2]
    · simp [crtc_store_hre, hen, haddr, h, Ne.symm h]
  · by_cases h : st.reg_E888 = 0x83
    · have hc := hstate83 h
      simp [crtc_store_hre, hen, haddr, h, hc.1, hc.2.1, hc.2.2]
    · simp [crtc_store_hre, hen, haddr, h, Ne.symm h]

/-- Witness for C3 at the powered-up enabled state and address 8. -/
theorem claim_C3_witness :
    ((crtc_store_hre stA 8 0x0F).petmem_ramON = 0 ∧
     (crtc_store_hre stA 8 0x0F).ramsel9 = 0 ∧
     (crtc_store_hre stA 8 0x0F).ramselA = 0 ∧
     (crtc_store_hre stA 8 0x0F).reg_E888 = 0x0F ∧
     (stA.reg_E888 ≠ 0x0F →
       (crtc_store_hre stA 8 0x0F).ramsel_changed_count =
         stA.ramsel_changed_count + 1) ∧
     (stA.reg_E888 = 0x0F →
       (crtc_store_hre stA 8 0x0F).ramsel_changed_count =
         stA.ramsel_changed_count)) ∧
    ((crtc_store_hre stA 8 0x83).petmem_ramON = 1 ∧
     (crtc_store_hre stA 8 0x83).ramsel9 = 0 ∧
     (crtc_store_hre stA 8 0x83).ramselA = 0 ∧
     (crtc_store_hre stA 8 0x83).reg_E888 = 0x83 ∧
     (stA.reg_E888 ≠ 0x83 →
       (crtc_store_hre stA 8 0x83).ramsel_changed_count =
         stA.ramsel_changed_count + 1) ∧
     (stA.reg_E888 = 0x83 →
       (crtc_store_hre stA 8 0x83).ramsel_changed_count =
         stA.ramsel_changed_count)) :=
  claim_C3 stA 8 rfl (by decide) (by decide) (by decide)

/-- C4: a qualifying latch write of a value other than 0x0F and 0x83
stores the value, issues no banking notification, changes no banking
flag, and the diagnostics dump afterwards shows the latch with the
unusual-value annotation and still returns success (some, code 0). -/
theorem claim_C4 (st : HreState) (addr v : Nat)
    (hen : st.pethre_enabled = true)
    (haddr : addr &&& 0x0008 ≠ 0)
    (hv0F : v ≠ 0x0F) (hv83 : v ≠ 0x83) :
    (crtc_store_hre st addr v).reg_E888 = v ∧
    (crtc_store_hre st addr v).petmem_ramON = st.petmem_ramON ∧
    (crtc_store_hre st addr v).ramsel9 = st.ramsel9 ∧
    (crtc_store_hre st addr v).ramselA = st.ramselA ∧
    (crtc_store_hre st addr v).ramsel_changed_count =
      st.ramsel_changed_count ∧
    e888_dump (crtc_store_hre st addr v) =
      some (v, true, st.petmem_ramON) := by
  by_cases h : v = st.reg_E888
  · subst h
    simp [crtc_store_hre, hen, haddr, e888_dump, hv0F, hv83]
  · simp [crtc_store_hre, hen, haddr, h, Ne.symm h, hv0F, hv83, e888_dump]

/-- Witness for C4: writing 0x55 at the powered-up enabled state. -/
theorem claim_C4_witness :
    (crtc_store_hre stA 8 0x55).reg_E888 = 0x55 ∧
    (crtc_store_hre stA 8 0x55).petmem_ramON = stA.petmem_ramON ∧
    (crtc_store_hre stA 8 0x55).ramsel9 = stA.ramsel9 ∧
    (crtc_store_hre stA 8 0x55).ramselA = stA.ramselA ∧
    (crtc_store_hre stA 8 0x55).ramsel_changed_count =
      stA.ramsel_changed_count ∧
    e888_dump (crtc_store_hre stA 8 0x55) =
      some (0x55, true, stA.petmem_ramON) :=
  claim_C4 stA 8 0x55 rfl (by decide) (by decide) (by decide)

/-- C5: a qualifying write to CRTC register 12 (enabled, address bit 3
clear, bit 0 set, register number 12 selected) deregisters the draw
callback when bit 4 of the value is set and registers it when clear,
regardless of the prior registration state. -/
theorem claim_C5 (st : HreState) (addr v : Nat)
    (hen : st.pethre_enabled = true)
    (h8 : addr &&& 0x0008 = 0)
    (h1 : addr &&& 0x0001 ≠ 0)
    (hreg : st.crtc_regno = 0x0c) :
    (v &&& CRTC_MA12 ≠ 0 →
      (crtc_store_hre st addr v).hires_draw_callback = false) ∧
    (v &&& CRTC_MA12 = 0 →
      (crtc_store_hre st addr v).hires_draw_callback = true) := by
  have h1m : addr % 2 = 1 := by
    have hm := Nat.and_one_is_mod addr
    omega
  constructor <;> intro hv <;>
    simp [crtc_store_hre, hen, h8, h1m, hreg, hv]

/-- Witness for C5: both polarities at a state with the callback already
registered (values 0x10 and 0x00 written to register 12). -/
theorem claim_C5_witness :
    (crtc_store_hre stB 1 0x10).hires_draw_callback = false ∧
    (crtc_store_hre stB 1 0x00).hires_draw_callback = true :=
  ⟨(claim_C5 stB 1 0x10 rfl (by decide) (by decide) rfl).1 (by decide),
   (claim_C5 stB 1 0x00 rfl (by decide) (by decide) rfl).2 (by decide)⟩

/-- C10: with the feature enabled, a write whose address has bit 3 set
is handled exclusively by the latch path: the callback registration is
unchanged and the outcome is that of the pure latch address 0x0008,
whatever address bit 0 is; and when both bit 3 and bit 0 are clear the
write does nothing, so the start-address path runs only for addresses
with bit 3 clear and bit 0 set. -/
theorem claim_C10 (st : HreState) (addr v : Nat)
    (hen : st.pethre_enabled = true) :
    (addr &&& 0x0008 ≠ 0 →
      (crtc_store_hre st addr v).hires_draw_callback =
        st.hires_draw_callback ∧
      crtc_store_hre st addr v = crtc_store_hre st 0x0008 v) ∧
    (addr &&& 0x0008 = 0 → addr &&& 0x0001 = 0 →
      crtc_store_hre st addr v = st) := by
  have h88 : (0x0008 : Nat) &&& 0x0008 ≠ 0 := by decide
  constructor
  · intro h
    constructor
    · simp only [crtc_store_hre, hen, if_true]
      rw [if_pos h]
      split_ifs <;> rfl
    · simp only [crtc_store_hre, hen, if_true]
      rw [if_pos h, if_pos h88]
  · intro hb3 hb0
    simp [crtc_store_hre, hen, hb3, hb0]

/-- Witness for C10: address 9 (latch bit plus bit 0, value with bit 4
clear) leaves the callback unregistered and acts like address 8;
address 0 does nothing. -/
theorem claim_C10_witness :
    ((crtc_store_hre stA 9 0x00).hires_draw_callback =
        stA.hires_draw_callback ∧
      crtc_store_hre stA 9 0x00 = crtc_store_hre stA 0x0008 0x00) ∧
    crtc_store_hre stA 0 0x00 = stA :=
  ⟨(claim_C10 stA 9 0x00 rfl).1 (by decide),
   (claim_C10 stA 0 0x00 rfl).2 (by decide) (by decide)⟩

/-! ### Claims about power-up, reset and the snapshot codec -/

/-- C9: power-up sets the latch to 0x0F and RAM-on to 0, while reset is
the identity on the whole core state, so the latch survives a soft
reset at whatever value a preceding write stored. -/
theorem claim_C9 (st : HreState) :
    (pethre_powerup st).reg_E888 = 0x0F ∧
    (pethre_powerup st).petmem_ramON = 0 ∧
    pethre_reset st = st ∧
    (∀ addr v : Nat,
      (pethre_reset (crtc_store_hre st addr v)).reg_E888 =
        (crtc_store_hre st addr v).reg_E888) :=
  ⟨rfl, rfl, rfl, fun _ _ => rfl⟩

/-- C7: reading a present HREMEM record with a major version other than
1 fails (returns -1) and leaves the whole state, in particular the
latch, unchanged; with major version 1 it succeeds (returns 0) and
restores the latch from the 16-bit word narrowed to 8 bits. -/
theorem claim_C7 (m : snapshot_module_t) (st : HreState) :
    (m.vmajor ≠ HREMEM_DUMP_VER_MAJOR →
      pethre_ram_read_snapshot_module (some m) st = (-1, st)) ∧
    (m.vmajor = HREMEM_DUMP_VER_MAJOR →
      pethre_ram_read_snapshot_module (some m) st =
        (0, { st with reg_E888 := m.word % 256 })) := by
  constructor <;> intro h <;> simp [pethre_ram_read_snapshot_module, h]

/-- Witness for C7: a major-version-2 record is rejected leaving the
fresh state untouched; a version-1 record with word 0x283 restores the
latch to 0x83. -/
theorem claim_C7_witness :
    pethre_ram_read_snapshot_module (some ⟨2, 0, 0x0F⟩) stA = (-1, stA) ∧
    pethre_ram_read_snapshot_module (some ⟨1, 0, 0x283⟩) stA =
      (0, { stA with reg_E888 := 0x283 % 256 }) :=
  ⟨(claim_C7 ⟨2, 0, 0x0F⟩ stA).1 (by decide),
   (claim_C7 ⟨1, 0, 0x283⟩ stA).2 rfl⟩

/-- C8 counterexample: with the HREMEM record absent the public read
succeeds, but the latch is left at its previous value, not reset to the
default 0x0F: from a state holding 0x83 it stays 0x83. -/
theorem claim_C8_counterexample :
    pethre_snapshot_read_module none stB = (0, stB) ∧
    stB.reg_E888 ≠ 0x0F := by
  decide

/-- C8 as amended: with the HREMEM record absent the public snapshot
read succeeds (returns 0) and leaves the state unchanged; a freshly
powered-up instance therefore still holds the default latch 0x0F. -/
theorem claim_C8_amended (st : HreState) :
    pethre_snapshot_read_module none st = (0, st) ∧
    (pethre_snapshot_read_module none (pethre_powerup st)).2.reg_E888 =
      0x0F :=
  ⟨rfl, rfl⟩

/-! ### Claims about the raster translator -/

/-- Each emitted source byte produces exactly two output words. -/
theorem hre_draw_run_length (mem dwg : Nat → Nat) :
    ∀ s n, (hre_draw_run mem dwg s n).length = 2 * n := by
  intro s n
  induction n generalizing s with
  | zero => rfl
  | succ k ih =>
    simp [hre_draw_run, ih]
    omega

/-- C1 as amended: for every qualifying draw call the computed
framebuffer offset equals the spec formula
base + (highPart << 3) + (rowWithinChar << 6) + lowPart with
base = 0x8000 (the start of the CRTC screen window in mem_ram); the
concrete input reaching base + 0x2000 at rowWithinChar 0 is
screenRelativeAddress 0x0400 (the matrix address 0x0200 already doubled),
not 0x0200. -/
theorem claim_C1_amended (mem dwg : Nat → Nat)
    (xstart xend scr_rel ymod8 : Nat)
    (h8 : ymod8 < 8) (hx : xstart < xend) :
    (pethre_DRAW mem dwg xstart xend scr_rel ymod8).offset =
      some (spec_offset_formula 0x8000 scr_rel ymod8) ∧
    hre_screen_rel 0x0400 0 = 0x8000 + 0x2000 := by
  constructor
  · simp [pethre_DRAW, h8, hx, hre_screen_rel, spec_offset_formula]
  · decide

/-- Witness for the amended C1 at the concrete inputs of the claim. -/
theorem claim_C1_amended_witness :
    (pethre_DRAW (fun _ => 0) (fun n => n) 0 1 0x0400 0).offset =
      some (spec_offset_formula 0x8000 0x0400 0) ∧
    hre_screen_rel 0x0400 0 = 0x8000 + 0x2000 :=
  claim_C1_amended (fun _ => 0) (fun n => n) 0 1 0x0400 0
    (by decide) (by decide)

/-- C1 counterexample: for screenRelativeAddress 0x0200 and
rowWithinChar 0 the code computes offset 0x9000 = base + 0x1000, not
base + 0x2000 as the claim states. -/
theorem claim_C1_counterexample :
    (pethre_DRAW (fun _ => 0) (fun n => n) 0 1 0x0200 0).offset =
      some 0x9000 ∧
    (0x9000 : Nat) ≠ 0x8000 + 0x2000 := by
  decide

/-- C2 as amended: for every qualifying draw call the out-of-window
diagnostic fires exactly when the computed start offset reaches or
exceeds the 0xE000 end boundary, and in either case drawing proceeds in
full - the call always emits 2 * (xEnd - xStart) output words, it is
never truncated or skipped; in particular an in-bounds call draws
normally with no diagnostic. -/
theorem claim_C2_amended (mem dwg : Nat → Nat)
    (xstart xend scr_rel ymod8 : Nat)
    (h8 : ymod8 < 8) (hx : xstart < xend) :
    (pethre_DRAW mem dwg xstart xend scr_rel ymod8).diag =
      decide (0xE000 ≤ hre_screen_rel scr_rel ymod8) ∧
    (pethre_DRAW mem dwg xstart xend scr_rel ymod8).writes.length =
      2 * (xend - xstart) := by
  constructor
  · simp [pethre_DRAW, h8, hx]
  · simp only [pethre_DRAW, h8, hx, and_self, if_true]
    split
    · exact hre_draw_run_length mem dwg _ _
    · unfold hre_general_path
      simp only [List.length_append, hre_draw_run_length]
      split <;> omega

/-- Witness for the amended C2: an in-bounds one-character call. -/
theorem claim_C2_amended_witness :
    (pethre_DRAW (fun _ => 0) (fun n => n) 0 1 0 0).diag =
      decide (0xE000 ≤ hre_screen_rel 0 0) ∧
    (pethre_DRAW (fun _ => 0) (fun n => n) 0 1 0 0).writes.length =
      2 * (1 - 0) :=
  claim_C2_amended (fun _ => 0) (fun n => n) 0 1 0 0
    (by decide) (by decide)

/-- C2 counterexample: for screenRelativeAddress 0x0C00 and
rowWithinChar 0 the computed offset is exactly 0xE000, one byte past the
window's final valid byte; the diagnostic fires, yet the call still
draws - it emits output words and reads the out-of-window source byte at
offset 0xE000, instead of being truncated or skipped. -/
theorem claim_C2_counterexample :
    (pethre_DRAW (fun _ => 0) (fun n => n) 0 1 0x0C00 0).diag = true ∧
    (pethre_DRAW (fun _ => 0) (fun n => n) 0 1 0x0C00 0).writes ≠ [] ∧
    (pethre_DRAW (fun _ => 0) (fun n => n) 0 1 0x0C00 0).reads =
      [0xE000] := by
  decide

/-- C6: for a qualifying draw call whose segment is aligned to a
64-byte block (lowPart 0) and no wider than 64 characters, the fast
path taken by pethre_DRAW produces exactly the output of the general
path with its width0 split and 7 * 64 skip. -/
theorem claim_C6 (mem dwg : Nat → Nat) (xstart xend scr_rel ymod8 : Nat)
    (h8 : ymod8 < 8) (hx : xstart < xend)
    (hlo : scr_rel &&& MA_LO = 0)
    (hw : xend - xstart ≤ MA_WIDTH) :
    (pethre_DRAW mem dwg xstart xend scr_rel ymod8).writes =
      hre_general_path mem dwg (hre_screen_rel scr_rel ymod8)
        (scr_rel &&& MA_LO) (xend - xstart) := by
  simp only [pethre_DRAW, h8, hx, and_self, if_true, hlo, hw]
  unfold hre_fast_path hre_general_path
  have hw0 :
      (if xend - xstart < MA_WIDTH then xend - xstart
       else MA_WIDTH) = xend - xstart := by
    split <;> omega
  simp [hw0, hre_draw_run]

/-- Witness for C6: a two-character aligned segment. -/
theorem claim_C6_witness :
    (pethre_DRAW (fun a => a) (fun n => n) 0 2 0x0400 3).writes =
      hre_general_path (fun a => a) (fun n => n)
        (hre_screen_rel 0x0400 3) (0x0400 &&& MA_LO) 2 :=
  claim_C6 (fun a => a) (fun n => n) 0 2 0x0400 3
    (by decide) (by decide) (by decide) (by decide)

end Pethre
